import Mathlib

/-!
Verification development for the Dossier repository: shallow embeddings of
the error-pattern classifier and Stack Exchange client (stackoverflow.py),
of the dossier-assembly driver block, and of the Context7 client's response
normalization (context7.py), together with theorems settling the frozen
claims about them.
-/

/-! ## Classifier (ErrorParser, stackoverflow.py lines 4-32) -/

/-- Lowercase a string into its character list; models the effect of
re.IGNORECASE by lowercasing both pattern and text. -/
def lowerChars (s : String) : List Char := s.data.map Char.toLower

/-- Remainder of the text after the first occurrence of the literal `s`;
none when `s` does not occur. Models locating one literal part of a regex
in the text. -/
def dropAfter (s : List Char) : List Char → Option (List Char)
  | [] => if s.isEmpty then some [] else none
  | c :: t =>
    if s.isPrefixOf (c :: t) then some ((c :: t).drop s.length)
    else dropAfter s t

/-- Whether a pattern, given as its literal segments (the pieces separated
by ".*" in the source regex), matches anywhere in the text: each segment
occurs, in order, each after the end of the previous one. -/
def matchSegs : List (List Char) → List Char → Bool
  | [], _ => true
  | s :: rest, h =>
    match dropAfter s h with
    | none => false
    | some h2 => matchSegs rest h2

/-- Models re.search(pattern, msg, re.IGNORECASE) being a match for the
pattern class used in LANGUAGE_PATTERNS: literal segments separated by
".*" gaps (escaped parentheses are literal characters). -/
def patMatches (segs : List String) (msg : String) : Bool :=
  matchSegs (segs.map lowerChars) (lowerChars msg)

/-- ErrorParser.LANGUAGE_PATTERNS, in declaration order. Each pattern is
its list of literal segments. -/
def LANGUAGE_PATTERNS : List (String × List (List String)) :=
  [ ("python",
      [["TypeError"], ["ValueError"], ["AttributeError"],
       ["IndexError"], ["KeyError"], ["ImportError"],
       ["Traceback (most recent call last)"]])
  , ("javascript",
      [["ReferenceError"], ["TypeError", "JavaScript"],
       ["Uncaught"], ["Cannot read property"]])
  , ("java",
      [["NullPointerException"], ["ArrayIndexOutOfBoundsException"],
       ["ClassNotFoundException"]]) ]

/-- The for-loop of ErrorParser.detect_language over an association list:
return the first label one of whose patterns matches. -/
def detectFrom : List (String × List (List String)) → String → Option String
  | [], _ => none
  | (lang, pats) :: rest, msg =>
    if pats.any (fun p => patMatches p msg) then some lang
    else detectFrom rest msg

/-- ErrorParser.detect_language: first matching label in declaration
order, None (none) when no pattern of any label matches. -/
def detect_language (msg : String) : Option String :=
  detectFrom LANGUAGE_PATTERNS msg

/-! ## Stack Exchange client (stackoverflow.py lines 35-80) -/

/-- A question item of a search/advanced response; fields read by the
client and the driver. Fields the source reads with dict.get are Options. -/
structure SEQuestion where
  question_id : Nat
  title : String
  score : Int
  link : String
  tags : Option (List String)
  accepted_answer_id : Option Nat
deriving DecidableEq

/-- An answer item of a questions/{ids}/answers response; fields read by
the client and the driver. Fields read with dict.get are Options. -/
structure SEAnswer where
  question_id : Nat
  answer_id : Nat
  body : Option String
  score : Int
  creation_date : Nat
  link : Option String
  is_accepted : Option Bool
deriving DecidableEq

/-- A transport response for search_similar: its items plus the other
response fields, which the source leaves untouched (modelled by one
representative field). -/
structure SEResponse where
  items : List SEQuestion
  has_more : Bool
deriving DecidableEq

/-- A transport response for get_accepted_answers. -/
structure AnswersResponse where
  items : List SEAnswer
deriving DecidableEq

/-- The response-processing part of StackExchangeClient.search_similar
(lines 73-80): keep the questions whose accepted_answer_id is not None,
truncate to the first 5, store them back into the response. -/
def search_similar_process (response : SEResponse) : SEResponse :=
  { response with
    items := (response.items.filter (fun q => q.accepted_answer_id.isSome)).take 5 }

/-- StackExchangeClient.get_accepted_answers (lines 41-59), with the
transport as an explicit collaborator. Returns the result together with
the number of transport calls made. -/
def get_accepted_answers (fetch : List Nat → Nat → AnswersResponse)
    (question_ids : List Nat) (pagesize : Nat) : AnswersResponse × Nat :=
  if question_ids.isEmpty then ({ items := [] }, 0)
  else
    ({ items := (fetch question_ids pagesize).items.filter
        (fun a => a.is_accepted.getD false) }, 1)

/-! ## Dossier assembly (stackoverflow.py driver block, lines 109-133) -/

/-- Lookup in the dict built by the comprehension
answer_map = (a question_id mapped to a for a in answers): iterating in
order with later entries overwriting earlier ones, then .get(qid). -/
def answer_map_get (answers : List SEAnswer) (qid : Nat) : Option SEAnswer :=
  answers.foldl (fun acc a => if a.question_id == qid then some a else acc) none

/-- The question half of a dossier item (lines 119-125). -/
structure DossierQuestion where
  id : Nat
  title : String
  score : Int
  link : String
  tags : List String
deriving DecidableEq

/-- The accepted-answer half of a dossier item (lines 126-132). -/
structure DossierAnswer where
  id : Nat
  body : String
  score : Int
  created : Nat
  link : String
deriving DecidableEq

/-- A joined question plus accepted answer, as the driver builds it. -/
structure DossierItem where
  question : DossierQuestion
  accepted_answer : DossierAnswer
deriving DecidableEq

/-- One dossier item as the driver's append builds it from a question and
the answer found for it (lines 118-133), with the source's dict.get
defaults: tags default to [], body to "", the answer link falls back to
the question link. -/
def mkDossierItem (q : SEQuestion) (a : SEAnswer) : DossierItem :=
  { question :=
      { id := q.question_id, title := q.title, score := q.score,
        link := q.link, tags := q.tags.getD [] }
  , accepted_answer :=
      { id := a.answer_id, body := a.body.getD "", score := a.score,
        created := a.creation_date, link := a.link.getD q.link } }

/-- The driver's assembly loop (lines 112-133): for each question in input
order look up its answer in answer_map and skip it when there is none. -/
def dossier_items (questions : List SEQuestion) (answers : List SEAnswer) :
    List DossierItem :=
  questions.filterMap
    (fun q => (answer_map_get answers q.question_id).map (mkDossierItem q))

/-- Concrete question with id 1 (the claim example's primary record 1). -/
def q1ex : SEQuestion :=
  { question_id := 1, title := "t1", score := 3, link := "l1",
    tags := some ["python"], accepted_answer_id := some 11 }

/-- Concrete question with id 2 and no accepted answer id. -/
def q2ex : SEQuestion :=
  { question_id := 2, title := "t2", score := 4, link := "l2",
    tags := none, accepted_answer_id := none }

/-- Concrete accepted answer for question 1 (the claim example's secondary
record with qid 1). -/
def a1ex : SEAnswer :=
  { question_id := 1, answer_id := 11, body := some "b1", score := 7,
    creation_date := 100, link := none, is_accepted := some true }

/-- The dossier item the assembler builds from q1ex and a1ex. -/
def dossierItemEx : DossierItem := mkDossierItem q1ex a1ex

/-- Concrete non-accepted answer (is_accepted absent), used to exercise
the client-side filter. -/
def a2ex : SEAnswer :=
  { question_id := 2, answer_id := 22, body := none, score := 1,
    creation_date := 200, link := some "al2", is_accepted := none }

/-! ## Context7 client: JSON payloads and normalization (context7.py) -/

/-- A deserialized JSON value as json.loads returns it: Python ints and
floats are kept apart, objects are the dict's key-value pairs. -/
inductive Json where
  | null : Json
  | bool : Bool → Json
  | int : Int → Json
  | float : Rat → Json
  | str : String → Json
  | arr : List Json → Json
  | obj : List (String × Json) → Json

/-- Whether the value is a dict (the source's isinstance(item, dict)). -/
def Json.isObj : Json → Bool
  | Json.obj _ => true
  | _ => false

/-- Whether the value is a list (the source's isinstance(data, list)). -/
def Json.isArr : Json → Bool
  | Json.arr _ => true
  | _ => false

/-- The key-value pairs of a dict value, [] for any other value. -/
def Json.objFields : Json → List (String × Json)
  | Json.obj kvs => kvs
  | _ => []

/-- The elements of a list value, [] for any other value. -/
def Json.arrItems : Json → List Json
  | Json.arr xs => xs
  | _ => []

/-- Python dict lookup over key-value pairs: when a key repeats, the later
pair wins, as when json.loads builds the dict. none when absent. -/
def lookupLast (kvs : List (String × Json)) (k : String) : Option Json :=
  kvs.foldl (fun acc kv => if kv.fst == k then some kv.snd else acc) none

/-- Python iteration over a value, as the source's for-loops use it: a
list yields its elements, a string its one-character strings, a dict its
keys; any other value raises TypeError. -/
def pyIter : Json → Except String (List Json)
  | Json.arr xs => Except.ok xs
  | Json.str s => Except.ok (s.data.map (fun c => Json.str (String.mk [c])))
  | Json.obj kvs => Except.ok (kvs.map (fun kv => Json.str kv.fst))
  | _ => Except.error "TypeError"

/-- CodeSnippet of context7.py; the dataclass does not check field types,
so the fields hold whatever JSON values .get returned. -/
structure CodeSnippet where
  language : Json
  code : Json

/-- SearchResult of context7.py; fields hold the raw JSON values. -/
structure SearchResult where
  id : Json
  title : Json
  description : Json
  stars : Json
  trust_score : Json
  versions : Json

/-- DocResult of context7.py; fields hold the raw JSON values, except the
parsed code list. -/
structure DocResult where
  code_title : Json
  code_description : Json
  code_language : Json
  code_id : Json
  page_title : Json
  code_list : List CodeSnippet
  relevance : Json

/-- The SearchResult constructor call of search (lines 84-91): every field
read with item.get and a type-appropriate default. -/
def searchResultOfItem (kvs : List (String × Json)) : SearchResult :=
  { id := (lookupLast kvs "id").getD (Json.str "")
  , title := (lookupLast kvs "title").getD (Json.str "")
  , description := (lookupLast kvs "description").getD (Json.str "")
  , stars := (lookupLast kvs "stars").getD (Json.int 0)
  , trust_score := (lookupLast kvs "trustScore").getD (Json.float 0)
  , versions := (lookupLast kvs "versions").getD (Json.arr []) }

/-- The per-item loop of search (lines 83-91). There is no dict check on
the items: item.get on a non-dict raises AttributeError, which aborts the
whole loop. -/
def normalizeSearchItems : List Json → Except String (List SearchResult)
  | [] => Except.ok []
  | item :: rest =>
    match item with
    | Json.obj kvs =>
      match normalizeSearchItems rest with
      | Except.ok tail => Except.ok (searchResultOfItem kvs :: tail)
      | Except.error e => Except.error e
    | _ => Except.error "AttributeError"

/-- The normalization phase of search (lines 81-93) applied to the parsed
body: data.get("results", []) — an AttributeError when data is not a
dict — then the per-item loop over whatever Python iteration yields. -/
def searchNormalize (data : Json) : Except String (List SearchResult) :=
  match data with
  | Json.obj kvs =>
    match pyIter ((lookupLast kvs "results").getD (Json.arr [])) with
    | Except.error e => Except.error e
    | Except.ok xs => normalizeSearchItems xs
  | _ => Except.error "AttributeError"

/-- The CodeSnippet constructor call of get_docs (lines 158-161). -/
def codeSnippetOfItem (kvs : List (String × Json)) : CodeSnippet :=
  { language := (lookupLast kvs "language").getD (Json.str "")
  , code := (lookupLast kvs "code").getD (Json.str "") }

/-- The inner codeList loop of get_docs (lines 156-161): each element is
read with code_item.get, which raises AttributeError on a non-dict. -/
def normalizeCodeItems : List Json → Except String (List CodeSnippet)
  | [] => Except.ok []
  | ci :: rest =>
    match ci with
    | Json.obj kvs =>
      match normalizeCodeItems rest with
      | Except.ok tail => Except.ok (codeSnippetOfItem kvs :: tail)
      | Except.error e => Except.error e
    | _ => Except.error "AttributeError"

/-- The DocResult constructor call of get_docs (lines 163-171). -/
def docResultOfItem (kvs : List (String × Json)) (cl : List CodeSnippet) :
    DocResult :=
  { code_title := (lookupLast kvs "codeTitle").getD (Json.str "")
  , code_description := (lookupLast kvs "codeDescription").getD (Json.str "")
  , code_language := (lookupLast kvs "codeLanguage").getD (Json.str "")
  , code_id := (lookupLast kvs "codeId").getD (Json.str "")
  , page_title := (lookupLast kvs "pageTitle").getD (Json.str "")
  , code_list := cl
  , relevance := (lookupLast kvs "relevance").getD (Json.float 0) }

/-- The per-item loop of get_docs (lines 149-171): a non-dict item is
skipped with a warning; a dict item has its codeList iterated (TypeError
when not iterable, AttributeError on non-dict elements) and is appended. -/
def normalizeDocItems : List Json → Except String (List DocResult)
  | [] => Except.ok []
  | item :: rest =>
    match item with
    | Json.obj kvs =>
      match pyIter ((lookupLast kvs "codeList").getD (Json.arr [])) with
      | Except.error e => Except.error e
      | Except.ok cxs =>
        match normalizeCodeItems cxs with
        | Except.error e => Except.error e
        | Except.ok cl =>
          match normalizeDocItems rest with
          | Except.error e => Except.error e
          | Except.ok tail => Except.ok (docResultOfItem kvs cl :: tail)
    | _ => normalizeDocItems rest

/-- The snippets-envelope unwrapping of get_docs (lines 139-140): when
data is a dict containing the key "snippets", replace it by that value. -/
def unwrapSnippets (data : Json) : Json :=
  match data with
  | Json.obj kvs =>
    match lookupLast kvs "snippets" with
    | some v => v
    | none => data
  | _ => data

/-- A transport response as get_docs reads it: its body text and, when the
body is valid JSON, the parsed value (none models response.json() raising
ValueError). -/
structure HttpResponse where
  text : String
  json : Option Json

/-- What a get_docs call ends in: a parsed doc list, the raw body text, or
a raised exception (a failed transport call re-raised, or a TypeError or
AttributeError escaping the per-item loop). -/
inductive DocsOutcome where
  | docs : List DocResult → DocsOutcome
  | rawText : String → DocsOutcome
  | error : String → DocsOutcome

/-- Context7Client.get_docs (lines 127-180) after the request is made: the
transport either fails (RequestException, re-raised) or yields a response;
for response_type "json" the body is parsed, the snippets envelope
unwrapped, a non-list top level returned as raw text, and the items
normalized; any other response_type returns the raw text. -/
def get_docs (transport : Except String HttpResponse)
    (response_type : String) : DocsOutcome :=
  match transport with
  | Except.error e => DocsOutcome.error e
  | Except.ok resp =>
    if response_type == "json" then
      match resp.json with
      | none => DocsOutcome.rawText resp.text
      | some data0 =>
        match unwrapSnippets data0 with
        | Json.arr items =>
          match normalizeDocItems items with
          | Except.ok ds => DocsOutcome.docs ds
          | Except.error e => DocsOutcome.error e
        | _ => DocsOutcome.rawText resp.text
    else DocsOutcome.rawText resp.text

/-- A doc item is well formed when it is a dict whose codeList value (an
empty list when the key is absent) is a list of dicts: exactly the shape
on which the per-item mapping of get_docs cannot fail. -/
def wellFormedDocItem : Json → Bool
  | Json.obj kvs =>
    match (lookupLast kvs "codeList").getD (Json.arr []) with
    | Json.arr xs => xs.all Json.isObj
    | _ => false
  | _ => false

/-- The one DocResult a well-formed item maps to: the field reads of the
per-item loop of get_docs, made total. -/
def docGoodResult (item : Json) : DocResult :=
  docResultOfItem item.objFields
    ((((lookupLast item.objFields "codeList").getD (Json.arr [])).arrItems).map
      (fun ci => codeSnippetOfItem ci.objFields))

/-! ## Classifier lemmas and claims -/

/-- detectFrom returns the first entry whose pattern list has a match. -/
theorem detectFrom_eq_find? (l : List (String × List (List String)))
    (msg : String) :
    detectFrom l msg
      = (l.find? (fun lp => lp.snd.any (fun p => patMatches p msg))).map
          Prod.fst := by
  induction l with
  | nil => rfl
  | cons hd tl ih =>
    obtain ⟨lang, pats⟩ := hd
    by_cases h : pats.any (fun p => patMatches p msg) = true
    · have h' : (fun lp : String × List (List String) =>
          lp.snd.any (fun p => patMatches p msg)) (lang, pats) = true := h
      rw [detectFrom, if_pos h,
        @List.find?_cons_of_pos _
          (fun lp : String × List (List String) =>
            lp.snd.any (fun p => patMatches p msg)) (lang, pats) tl h']
      rfl
    · have h' : ¬ (fun lp : String × List (List String) =>
          lp.snd.any (fun p => patMatches p msg)) (lang, pats) = true := h
      rw [detectFrom, if_neg h, ih,
        @List.find?_cons_of_neg _
          (fun lp : String × List (List String) =>
            lp.snd.any (fun p => patMatches p msg)) (lang, pats) tl h']

/-- detectFrom returns none when no pattern of any entry matches. -/
theorem detectFrom_none (l : List (String × List (List String)))
    (msg : String)
    (h : l.all (fun lp => lp.snd.all (fun p => !patMatches p msg)) = true) :
    detectFrom l msg = none := by
  induction l with
  | nil => rfl
  | cons hd tl ih =>
    obtain ⟨lang, pats⟩ := hd
    rw [List.all_cons, Bool.and_eq_true] at h
    have hnone : pats.any (fun p => patMatches p msg) = false := by
      rw [List.any_eq_false]
      intro p hp
      have := (List.all_eq_true.mp h.1) p hp
      simpa using this
    rw [detectFrom, if_neg (by simp [hnone]), ih h.2]

/-- C3 counterexample: the classifier applied to "hello world" returns
None, not the string "unknown". -/
theorem classify_hello_world_counterexample :
    detect_language "hello world" = none ∧
      detect_language "hello world" ≠ some "unknown" := by
  exact ⟨by decide, by decide⟩

/-- C3 (amended): for every input text in which no pattern of any label
matches, detect_language returns None (no label); in particular on
"hello world". -/
theorem classify_no_match_returns_none :
    (∀ msg : String,
        LANGUAGE_PATTERNS.all
            (fun lp => lp.snd.all (fun p => !patMatches p msg)) = true →
        detect_language msg = none) ∧
      detect_language "hello world" = none := by
  refine ⟨fun msg h => detectFrom_none LANGUAGE_PATTERNS msg h, by decide⟩

/-- C4: detect_language iterates the labels in declaration order (python,
javascript, java) and returns the first label one of whose patterns
matches case-insensitively anywhere in the text; on the two concrete
inputs it returns python and javascript. -/
theorem classify_first_match_order :
    LANGUAGE_PATTERNS.map Prod.fst = ["python", "javascript", "java"] ∧
      (∀ msg : String,
        detect_language msg
          = (LANGUAGE_PATTERNS.find?
                (fun lp => lp.snd.any (fun p => patMatches p msg))).map
              Prod.fst) ∧
      detect_language "TypeError: unsupported operand" = some "python" ∧
      detect_language "Uncaught ReferenceError: x is not defined"
        = some "javascript" := by
  exact ⟨rfl, fun msg => detectFrom_eq_find? LANGUAGE_PATTERNS msg,
    by decide, by decide⟩

/-! ## Stack Exchange client claims -/

/-- C5: search_similar re-checks each returned question client-side,
keeping exactly those whose accepted_answer_id is present, truncated to
the first 5 in the order the service returned them; the rest of the
response is untouched, every kept question has an accepted answer id, at
most 5 are kept, and the kept list is an order-preserving subselection. -/
theorem search_similar_filters_and_truncates :
    ∀ resp : SEResponse,
      (search_similar_process resp).items
          = (resp.items.filter (fun q => q.accepted_answer_id.isSome)).take 5 ∧
        (search_similar_process resp).has_more = resp.has_more ∧
        (∀ q ∈ (search_similar_process resp).items,
          q.accepted_answer_id.isSome = true) ∧
        (search_similar_process resp).items.length ≤ 5 ∧
        List.Sublist (search_similar_process resp).items resp.items := by
  intro resp
  refine ⟨rfl, rfl, ?_, ?_, ?_⟩
  · intro q hq
    have hf : q ∈ resp.items.filter (fun q => q.accepted_answer_id.isSome) :=
      List.mem_of_mem_take hq
    exact (List.mem_filter.mp hf).2
  · exact List.length_take_le 5 _
  · exact List.Sublist.trans (List.take_sublist 5 _) (List.filter_sublist _)

/-- C6: get_accepted_answers on the empty identifier list returns an empty
items collection and makes zero transport calls, whatever the transport
would answer. -/
theorem get_accepted_answers_empty_no_call :
    ∀ (fetch : List Nat → Nat → AnswersResponse) (pagesize : Nat),
      get_accepted_answers fetch [] pagesize = ({ items := [] }, 0) :=
  fun _ _ => rfl

/-- C10: on a non-empty identifier list, get_accepted_answers makes one
transport call and keeps exactly the answers whose is_accepted flag is
present and true; every returned answer has is_accepted = some true. -/
theorem get_accepted_answers_only_accepted :
    ∀ (fetch : List Nat → Nat → AnswersResponse) (ids : List Nat)
      (pagesize : Nat),
      ids ≠ [] →
      (get_accepted_answers fetch ids pagesize).snd = 1 ∧
        (get_accepted_answers fetch ids pagesize).fst.items
          = (fetch ids pagesize).items.filter
              (fun a => a.is_accepted.getD false) ∧
        ∀ a ∈ (get_accepted_answers fetch ids pagesize).fst.items,
          a.is_accepted = some true := by
  intro fetch ids pagesize h
  have hne : ids.isEmpty = false := by
    cases ids with
    | nil => exact absurd rfl h
    | cons x xs => rfl
  refine ⟨by simp [get_accepted_answers, hne], by simp [get_accepted_answers, hne], ?_⟩
  intro a ha
  simp only [get_accepted_answers, hne, Bool.false_eq_true, if_false] at ha
  have hpa : a.is_accepted.getD false = true := (List.mem_filter.mp ha).2
  cases hb : a.is_accepted with
  | none => rw [hb] at hpa; simp at hpa
  | some b => rw [hb] at hpa; simp at hpa; rw [hpa]

/-- C10 witness: the filter theorem applied to a concrete transport double
returning one accepted and one non-accepted answer for ids [1, 2]. -/
theorem get_accepted_answers_only_accepted_witness :
    (get_accepted_answers (fun _ _ => { items := [a1ex, a2ex] }) [1, 2] 5).snd
        = 1 ∧
      (get_accepted_answers (fun _ _ => { items := [a1ex, a2ex] }) [1, 2] 5).fst.items
        = ((fun (_ : List Nat) (_ : Nat) =>
              ({ items := [a1ex, a2ex] } : AnswersResponse)) [1, 2] 5).items.filter
            (fun a => a.is_accepted.getD false) ∧
      ∀ a ∈ (get_accepted_answers (fun _ _ => { items := [a1ex, a2ex] }) [1, 2] 5).fst.items,
        a.is_accepted = some true :=
  get_accepted_answers_only_accepted (fun _ _ => { items := [a1ex, a2ex] })
    [1, 2] 5 (by decide)

/-! ## Dossier assembly lemmas and claims -/

/-- The answer_map fold with any accumulator: the last answer with the
key wins, the accumulator only when no answer has the key. -/
theorem answer_map_fold (l : List SEAnswer) (qid : Nat) :
    ∀ acc : Option SEAnswer,
      l.foldl (fun acc a => if a.question_id == qid then some a else acc) acc
        = (l.reverse.find? (fun a => a.question_id == qid)).or acc := by
  induction l with
  | nil => intro acc; rfl
  | cons x xs ih =>
    intro acc
    rw [List.foldl_cons, ih, List.reverse_cons, List.find?_append]
    cases hf : xs.reverse.find? (fun a => a.question_id == qid) with
    | some a => rfl
    | none =>
      cases hx : x.question_id == qid with
      | true =>
        have : [x].find? (fun a => a.question_id == qid) = some x :=
          List.find?_cons_of_pos _ hx
        rw [this]
        rfl
      | false =>
        have : [x].find? (fun a => a.question_id == qid) = List.find? _ [] :=
          List.find?_cons_of_neg _ (by simp [hx])
        rw [this]
        rfl

/-- answer_map lookup is last-write-wins: it returns the last answer of
the list whose question_id equals the key. -/
theorem answer_map_get_eq_reverse_find (ans : List SEAnswer) (qid : Nat) :
    answer_map_get ans qid
      = ans.reverse.find? (fun a => a.question_id == qid) := by
  rw [answer_map_get, answer_map_fold]
  cases ans.reverse.find? (fun a => a.question_id == qid) with
  | none => rfl
  | some a => rfl

/-- An answer found in answer_map under a key has that key as its
question_id. -/
theorem answer_map_get_question_id (ans : List SEAnswer) (qid : Nat)
    (a : SEAnswer) (h : answer_map_get ans qid = some a) :
    a.question_id = qid := by
  rw [answer_map_get_eq_reverse_find] at h
  have := List.find?_some h
  simpa using this

/-- The dossier keeps, in order, exactly the questions that have an
answer in answer_map. -/
theorem dossier_items_ids (qs : List SEQuestion) (ans : List SEAnswer) :
    (dossier_items qs ans).map (fun d => d.question.id)
      = (qs.filter (fun q => (answer_map_get ans q.question_id).isSome)).map
          (fun q => q.question_id) := by
  induction qs with
  | nil => rfl
  | cons q qs ih =>
    cases h : answer_map_get ans q.question_id with
    | none =>
      simpa [dossier_items, List.filterMap_cons, h, List.filter_cons]
        using ih
    | some a =>
      simpa [dossier_items, List.filterMap_cons, h, List.filter_cons,
        mkDossierItem] using ih

/-- C8: the answer lookup is keyed by question identifier with
last-write-wins on duplicate keys; the assembled output contains exactly
the questions with a matching answer, in the input order of the primary
sequence, a primary with no match being silently dropped; and assembling
primary records with ids 1 and 2 against the single secondary record for
id 1 yields exactly one DossierItem, for id 1. -/
theorem dossier_assembly_join :
    (∀ (ans : List SEAnswer) (qid : Nat),
        answer_map_get ans qid
          = ans.reverse.find? (fun a => a.question_id == qid)) ∧
      (∀ (qs : List SEQuestion) (ans : List SEAnswer),
        (dossier_items qs ans).map (fun d => d.question.id)
          = (qs.filter
                (fun q => (answer_map_get ans q.question_id).isSome)).map
              (fun q => q.question_id)) ∧
      dossier_items [q1ex, q2ex] [a1ex] = [dossierItemEx] ∧
      dossierItemEx.question.id = 1 := by
  exact ⟨answer_map_get_eq_reverse_find, dossier_items_ids, by decide, rfl⟩

/-- C9: every DossierItem of every assembled output was built from the
answer looked up under exactly its question's identifier: that answer
exists in the map at key question.id, its question_id equals question.id,
and the item's accepted_answer carries that answer's answer_id. -/
theorem dossier_answer_matches_question :
    ∀ (qs : List SEQuestion) (ans : List SEAnswer) (d : DossierItem),
      d ∈ dossier_items qs ans →
      ∃ a : SEAnswer,
        answer_map_get ans d.question.id = some a ∧
          a.question_id = d.question.id ∧
          d.accepted_answer.id = a.answer_id := by
  intro qs ans d hd
  rw [dossier_items] at hd
  obtain ⟨q, hq, hfq⟩ := List.mem_filterMap.mp hd
  obtain ⟨a, ha, hda⟩ := Option.map_eq_some'.mp hfq
  subst hda
  have hid : (mkDossierItem q a).question.id = q.question_id := rfl
  refine ⟨a, ?_, ?_, rfl⟩
  · rw [hid, ha]
  · rw [hid]
    exact answer_map_get_question_id ans q.question_id a ha

/-- C9 witness: the invariant instantiated at the concrete assembly of
questions 1 and 2 against the single answer for question 1. -/
theorem dossier_answer_matches_question_witness :
    ∃ a : SEAnswer,
      answer_map_get [a1ex] dossierItemEx.question.id = some a ∧
        a.question_id = dossierItemEx.question.id ∧
        dossierItemEx.accepted_answer.id = a.answer_id :=
  dossier_answer_matches_question [q1ex, q2ex] [a1ex] dossierItemEx
    (by decide)

/-! ## Context7 normalization lemmas and claims -/

/-- The doc-entry per-item loop skips an item that is not a dict. -/
theorem normalizeDocItems_skip (j : Json) (rest : List Json)
    (hj : j.isObj = false) :
    normalizeDocItems (j :: rest) = normalizeDocItems rest := by
  cases j with
  | obj kvs => simp [Json.isObj] at hj
  | null => rfl
  | bool b => rfl
  | int n => rfl
  | float q => rfl
  | str s => rfl
  | arr xs => rfl

/-- When the doc-entry loop succeeds, it emits at most one record per
input item. -/
theorem normalizeDocItems_length (items : List Json) :
    ∀ ds : List DocResult,
      normalizeDocItems items = Except.ok ds → ds.length ≤ items.length := by
  induction items with
  | nil =>
    intro ds h
    simp only [normalizeDocItems] at h
    cases h
    exact Nat.le_refl 0
  | cons item rest ih =>
    intro ds h
    by_cases hobj : item.isObj = true
    · cases item with
      | obj kvs =>
        simp only [normalizeDocItems] at h
        cases hpi : pyIter ((lookupLast kvs "codeList").getD (Json.arr [])) with
        | error e => rw [hpi] at h; cases h
        | ok cxs =>
          rw [hpi] at h
          dsimp only at h
          cases hci : normalizeCodeItems cxs with
          | error e => rw [hci] at h; cases h
          | ok cl =>
            rw [hci] at h
            dsimp only at h
            cases hdr : normalizeDocItems rest with
            | error e => rw [hdr] at h; cases h
            | ok tail =>
              rw [hdr] at h
              dsimp only at h
              cases h
              exact Nat.succ_le_succ (ih tail hdr)
      | null => simp [Json.isObj] at hobj
      | bool b => simp [Json.isObj] at hobj
      | int n => simp [Json.isObj] at hobj
      | float q => simp [Json.isObj] at hobj
      | str s => simp [Json.isObj] at hobj
      | arr xs => simp [Json.isObj] at hobj
    · rw [normalizeDocItems_skip item rest (Bool.not_eq_true _ ▸ hobj)] at h
      exact Nat.le_trans (ih ds h) (Nat.le_succ _)

/-- C1 counterexample: the search normalizer has no per-item record
check — a non-dict item in the results array aborts the whole batch with
an AttributeError instead of being skipped. -/
theorem search_nondict_item_aborts_counterexample :
    searchNormalize
        (Json.obj [("results", Json.arr [Json.int 7, Json.obj []])])
      = Except.error "AttributeError" := rfl

/-- C1 (amended): in the doc-entry normalizer (get_docs) any array item
that is not a dict is skipped rather than aborting the batch, and a
successful normalization returns at most one record per input item; the
search-result normalizer instead raises on a non-dict item. -/
theorem doc_normalizer_skips_nondict :
    (∀ (j : Json) (rest : List Json), j.isObj = false →
        normalizeDocItems (j :: rest) = normalizeDocItems rest) ∧
      (∀ (items : List Json) (ds : List DocResult),
        normalizeDocItems items = Except.ok ds →
        ds.length ≤ items.length) := by
  exact ⟨normalizeDocItems_skip, fun items => normalizeDocItems_length items⟩

/-- C2: get_docs degrades to the raw body text when the body is not valid
JSON or the top-level value after unwrapping the snippets envelope is not
an array, but a transport failure is re-raised to the caller. -/
theorem get_docs_degrades_and_reraises :
    (∀ text : String,
        get_docs (Except.ok { text := text, json := none }) "json"
          = DocsOutcome.rawText text) ∧
      (∀ (resp : HttpResponse) (d : Json), resp.json = some d →
        (unwrapSnippets d).isArr = false →
        get_docs (Except.ok resp) "json" = DocsOutcome.rawText resp.text) ∧
      (∀ e rt : String, get_docs (Except.error e) rt = DocsOutcome.error e) := by
  refine ⟨fun text => rfl, ?_, fun e rt => rfl⟩
  intro resp d hj hn
  obtain ⟨t, j⟩ := resp
  simp only at hj
  subst hj
  cases hu : unwrapSnippets d with
  | arr xs => rw [hu] at hn; simp [Json.isArr] at hn
  | null => simp [get_docs, hu]
  | bool b => simp [get_docs, hu]
  | int n => simp [get_docs, hu]
  | float q => simp [get_docs, hu]
  | str s => simp [get_docs, hu]
  | obj kvs => simp [get_docs, hu]

/-- C2 witness: with a transport response whose body parses to the
non-array value 3, get_docs returns the raw body text. -/
theorem get_docs_degrades_witness :
    get_docs (Except.ok { text := "raw body", json := some (Json.int 3) })
        "json"
      = DocsOutcome.rawText
          ({ text := "raw body", json := some (Json.int 3) } : HttpResponse).text :=
  get_docs_degrades_and_reraises.2.1
    { text := "raw body", json := some (Json.int 3) } (Json.int 3) rfl rfl

/-- The search per-item loop maps every dict item to its SearchResult. -/
theorem normalizeSearchItems_all_obj (items : List Json)
    (h : items.all Json.isObj = true) :
    normalizeSearchItems items
      = Except.ok (items.map (fun it => searchResultOfItem it.objFields)) := by
  induction items with
  | nil => rfl
  | cons item rest ih =>
    rw [List.all_cons, Bool.and_eq_true] at h
    cases item with
    | obj kvs =>
      simp only [normalizeSearchItems, ih h.2, List.map_cons]
      rfl
    | null => simp [Json.isObj] at h
    | bool b => simp [Json.isObj] at h
    | int n => simp [Json.isObj] at h
    | float q => simp [Json.isObj] at h
    | str s => simp [Json.isObj] at h
    | arr xs => simp [Json.isObj] at h

/-- The codeList loop maps every dict element to its CodeSnippet. -/
theorem normalizeCodeItems_all_obj (items : List Json)
    (h : items.all Json.isObj = true) :
    normalizeCodeItems items
      = Except.ok (items.map (fun ci => codeSnippetOfItem ci.objFields)) := by
  induction items with
  | nil => rfl
  | cons ci rest ih =>
    rw [List.all_cons, Bool.and_eq_true] at h
    cases ci with
    | obj kvs =>
      simp only [normalizeCodeItems, ih h.2, List.map_cons]
      rfl
    | null => simp [Json.isObj] at h
    | bool b => simp [Json.isObj] at h
    | int n => simp [Json.isObj] at h
    | float q => simp [Json.isObj] at h
    | str s => simp [Json.isObj] at h
    | arr xs => simp [Json.isObj] at h

/-- The doc-entry loop maps every well-formed item to its DocResult. -/
theorem normalizeDocItems_all_wf (items : List Json)
    (h : items.all wellFormedDocItem = true) :
    normalizeDocItems items = Except.ok (items.map docGoodResult) := by
  induction items with
  | nil => rfl
  | cons item rest ih =>
    rw [List.all_cons, Bool.and_eq_true] at h
    cases item with
    | obj kvs =>
      have hwf := h.1
      simp only [wellFormedDocItem] at hwf
      cases hcl : (lookupLast kvs "codeList").getD (Json.arr []) with
      | arr xs =>
        rw [hcl] at hwf
        simp only [normalizeDocItems, hcl, pyIter,
          normalizeCodeItems_all_obj xs hwf, ih h.2, List.map_cons]
        simp only [docGoodResult, Json.objFields, hcl, Json.arrItems]
      | null => rw [hcl] at hwf; simp at hwf
      | bool b => rw [hcl] at hwf; simp at hwf
      | int n => rw [hcl] at hwf; simp at hwf
      | float q => rw [hcl] at hwf; simp at hwf
      | str s => rw [hcl] at hwf; simp at hwf
      | obj kvs2 => rw [hcl] at hwf; simp at hwf
    | null => simp [wellFormedDocItem] at h
    | bool b => simp [wellFormedDocItem] at h
    | int n => simp [wellFormedDocItem] at h
    | float q => simp [wellFormedDocItem] at h
    | str s => simp [wellFormedDocItem] at h
    | arr xs => simp [wellFormedDocItem] at h

/-- C7 counterexample: a record-shaped item whose codeList value is the
number 5 makes the doc-entry normalization raise a TypeError instead of
producing one record per input item. -/
theorem doc_normalize_recordshaped_counterexample :
    (Json.obj [("codeList", Json.int 5)]).isObj = true ∧
      normalizeDocItems [Json.obj [("codeList", Json.int 5)]]
        = Except.error "TypeError" :=
  ⟨rfl, rfl⟩

/-- C7 (amended): for every array of record-shaped items — whose codeList
values, for the doc-entry kind, are arrays of records — normalization
produces exactly one record per input item with every field read from the
mapped input key, and an item missing a field gets the type-appropriate
default: empty string, integer 0, float 0.0, empty list. -/
theorem normalize_wellformed_pointwise :
    (∀ items : List Json, items.all Json.isObj = true →
        searchNormalize (Json.obj [("results", Json.arr items)])
          = Except.ok
              (items.map (fun it => searchResultOfItem it.objFields))) ∧
      (∀ items : List Json, items.all wellFormedDocItem = true →
        normalizeDocItems items = Except.ok (items.map docGoodResult)) ∧
      searchResultOfItem []
        = { id := Json.str "", title := Json.str "",
            description := Json.str "", stars := Json.int 0,
            trust_score := Json.float 0, versions := Json.arr [] } ∧
      docGoodResult (Json.obj [])
        = { code_title := Json.str "", code_description := Json.str "",
            code_language := Json.str "", code_id := Json.str "",
            page_title := Json.str "", code_list := [],
            relevance := Json.float 0 } ∧
      codeSnippetOfItem [] = { language := Json.str "", code := Json.str "" } := by
  refine ⟨?_, normalizeDocItems_all_wf, rfl, rfl, rfl⟩
  intro items h
  have : searchNormalize (Json.obj [("results", Json.arr items)])
      = normalizeSearchItems items := rfl
  rw [this, normalizeSearchItems_all_obj items h]
